import Mathlib

/-!
# Startup sequencer of the GitOpsCluster manager

A shallow embedding of `cmd/gitopscluster/exec/manager.go`:

* `RunManager` is a sequential Go function whose only observable behaviour is
  the sequence of calls it makes to its collaborators (client-go,
  controller-runtime, klog, the filtered cache, the packages of this
  repository) and the way it ends: by returning or through `os.Exit`.
  It is embedded as a program in the monad `Proc`, which records the calls in
  order (a trace) and stops at the first exit.
* The collaborators are outside the file.  Every one of them is called at most
  once per run, so the record `Env` holds one result for each.
* `NewNonCachingClient` is a pure wrapper of `client.New`, which is taken as a
  parameter.
-/

namespace GitOpsCluster

/-! ## Data model -/

/-- A Go `error` value that is not nil. -/
abbrev GoError := String

/-- Go `time.Duration`: a number of nanoseconds. -/
abbrev Duration := Int

/-- A `*rest.Config`, identified by a handle. -/
abbrev RestConfig := Nat

/-- A `*runtime.Scheme`, identified by a handle. -/
abbrev RuntimeScheme := Nat

/-- A `client.Reader`, identified by a handle. -/
abbrev APIReader := Nat

/-- A `context.Context`, identified by a handle. -/
abbrev Context := Nat

/-- Go `schema.GroupVersion`. -/
structure GroupVersion where
  Group : String
  Version : String
deriving DecidableEq, Repr

/-- Go `schema.GroupVersionKind`. -/
structure GroupVersionKind where
  Group : String
  Version : String
  Kind : String
deriving DecidableEq, Repr

/-- Go `schema.GroupVersion.WithKind`. -/
def GroupVersion.WithKind (gv : GroupVersion) (kind : String) : GroupVersionKind :=
  { Group := gv.Group, Version := gv.Version, Kind := kind }

/-- The constant `v1.SchemeGroupVersion` of `k8s.io/api/core/v1`: the core
group (the empty group name), version `v1`. -/
def v1.SchemeGroupVersion : GroupVersion := { Group := "", Version := "v1" }

/-- Go `filteredcache.Selector`; a field left out of a literal is the empty string. -/
structure Selector where
  FieldSelector : String := ""
  LabelSelector : String := ""
deriving DecidableEq, Repr

/-- A Go `map[schema.GroupVersionKind]filteredcache.Selector`, as the list of
its entries. -/
abbrev SelectorMap := List (GroupVersionKind × Selector)

/-- The value of the `NewCache` field of `ctrl.Options`: nil, or the builder
returned by `filteredcache.NewFilteredCacheBuilder` for a selector map. -/
inductive NewCacheFunc where
  | unset
  | filteredCacheBuilder (gvkLabelMap : SelectorMap)
deriving DecidableEq, Repr

/-- The value of the `NewClient` field of `ctrl.Options`: nil, or the function
`NewNonCachingClient` of this package. -/
inductive NewClientFunc where
  | unset
  | NewNonCachingClient
deriving DecidableEq, Repr

/-- The fields of `ctrl.Options` that `RunManager` sets.  The three timings are
pointers in Go (`none` is the nil pointer, `some d` a pointer to a variable
holding `d`). -/
structure Options where
  MetricsBindAddress : String
  Port : Int
  LeaderElection : Bool
  LeaderElectionID : String
  LeaderElectionNamespace : String
  NewCache : NewCacheFunc
  LeaseDuration : Option Duration
  RenewDeadline : Option Duration
  RetryPeriod : Option Duration
  NewClient : NewClientFunc
deriving DecidableEq, Repr

/-- The package variable `options` of package `exec` (declared in another file
of the package): the three leader election timings that `RunManager` reads. -/
structure GitOpsClusterCMDOptions where
  LeaderElectionLeaseDuration : Duration
  LeaderElectionRenewDeadline : Duration
  LeaderElectionRetryPeriod : Duration
deriving DecidableEq, Repr

/-- What `RunManager` uses of a `manager.Manager`: the scheme returned by
`GetScheme` and the reader returned by `GetAPIReader`. -/
structure Manager where
  scheme : RuntimeScheme
  apiReader : APIReader
deriving DecidableEq, Repr

/-- The four packages whose `AddToScheme` is called. -/
inductive SchemePkg where
  | apis
  | v1
  | clusterv1beta1
  | clusterv1
deriving DecidableEq, Repr

/-- An argument of a klog call. -/
inductive LogArg where
  | str (s : String)
  | dur (d : Duration)
  | err (e : GoError)
deriving DecidableEq, Repr

/-- One call made by `RunManager`, with its arguments and what it returned
(for an error value, `none` is nil). -/
inductive Event where
  | InClusterConfig (err : Option GoError)
  | klogInfo (args : List LogArg)
  | klogError (args : List LogArg)
  | GetConfigOrDie (config : Option RestConfig)
  | NewFilteredCacheBuilder (gvkLabelMap : SelectorMap)
  | NewManager (config : RestConfig) (opts : Options) (mgr : Option Manager) (err : Option GoError)
  | GetScheme (mgr : Manager) (s : RuntimeScheme)
  | AddToScheme (pkg : SchemePkg) (s : RuntimeScheme) (err : Option GoError)
  | AddGitOpsClusterToManager (mgr : Manager) (err : Option GoError)
  | SetupSignalHandler (ctx : Context)
  | GetAPIReader (mgr : Manager) (reader : APIReader)
  | DetectClusterRegistry (ctx : Context) (reader : APIReader)
  | Start (mgr : Manager) (ctx : Context) (err : Option GoError)
deriving DecidableEq, Repr

/-- How a run ends: the function returns, or the process exits with a status. -/
inductive Outcome where
  | returned
  | exited (code : Int)
deriving DecidableEq, Repr

/-! ## The monad of sequential code that may exit -/

/-- A sequential computation: the calls made so far and either a value or the
status of the exit that stopped it. -/
inductive Proc (α : Type) where
  | ret (a : α) (trace : List Event)
  | exit (code : Int) (trace : List Event)

/-- Sequencing: nothing runs after an exit. -/
@[simp] def Proc.bind {α β : Type} (m : Proc α) (f : α → Proc β) : Proc β :=
  match m with
  | .exit c t => .exit c t
  | .ret a t =>
    match f a with
    | .ret b u => .ret b (t ++ u)
    | .exit c u => .exit c (t ++ u)

instance : Monad Proc where
  pure a := .ret a []
  bind := Proc.bind

/-- The calls of a computation, in order. -/
@[simp] def Proc.trace {α : Type} : Proc α → List Event
  | .ret _ t => t
  | .exit _ t => t

/-- The way a computation ends. -/
@[simp] def Proc.outcome {α : Type} : Proc α → Outcome
  | .ret _ _ => .returned
  | .exit c _ => .exited c

/-- Record one call. -/
@[simp] def emit (ev : Event) : Proc Unit := .ret () [ev]

/-- Go `os.Exit`: it never returns, so it stands where a value of any type is expected. -/
@[simp] def os.Exit {α : Type} (code : Int) : Proc α := .exit code []

/-! ## Collaborators -/

/-- The results of the collaborators in one run, and the package variables
`RunManager` reads. -/
structure Env where
  /-- The package variable `metricsHost`. -/
  metricsHost : String
  /-- The package variable `metricsPort`. -/
  metricsPort : Int
  /-- The package variable `operatorMetricsPort`. -/
  operatorMetricsPort : Int
  /-- The package variable `options`. -/
  options : GitOpsClusterCMDOptions
  /-- The error returned by `rest.InClusterConfig`. -/
  inClusterConfig : Option GoError
  /-- The config returned by `ctrl.GetConfigOrDie` of controller-runtime;
  `none` when it cannot load a kubeconfig, in which case it logs the error and
  calls `os.Exit(1)` instead of returning. -/
  getConfigOrDie : Option RestConfig
  /-- The result of `ctrl.NewManager`. -/
  newManager : Except GoError Manager
  /-- The error returned by `apis.AddToScheme`. -/
  apisAddToScheme : Option GoError
  /-- The error returned by `v1.AddToScheme`. -/
  v1AddToScheme : Option GoError
  /-- The error returned by `clusterv1beta1.AddToScheme`. -/
  clusterv1beta1AddToScheme : Option GoError
  /-- The error returned by `clusterv1.AddToScheme`. -/
  clusterv1AddToScheme : Option GoError
  /-- The error returned by `controller.AddGitOpsClusterToManager`. -/
  addGitOpsClusterToManager : Option GoError
  /-- The context returned by `signals.SetupSignalHandler`. -/
  setupSignalHandler : Context
  /-- The error returned by `mgr.Start`. -/
  start : Option GoError

/-- The initial value of the package variable `metricsHost`. -/
def metricsHost : String := "0.0.0.0"

/-- The initial value of the package variable `metricsPort`. -/
def metricsPort : Int := 8388

/-- The initial value of the package variable `operatorMetricsPort`. -/
def operatorMetricsPort : Int := 8688

/-- Go `fmt.Sprintf("%s:%d", s, d)`. -/
def fmt.Sprintf_s_colon_d (s : String) (d : Int) : String :=
  s ++ ":" ++ toString d

/-- Go `klog.Info`. -/
@[simp] def klog.Info (args : List LogArg) : Proc Unit := emit (.klogInfo args)

/-- Go `klog.Error`. -/
@[simp] def klog.Error (args : List LogArg) : Proc Unit := emit (.klogError args)

/-- Go `rest.InClusterConfig`; the config it returns is discarded by the caller. -/
@[simp] def rest.InClusterConfig (e : Env) : Proc (Option GoError) := do
  emit (.InClusterConfig e.inClusterConfig)
  pure e.inClusterConfig

/-- Go `ctrl.GetConfigOrDie`: returns the config, or exits with status 1. -/
@[simp] def ctrl.GetConfigOrDie (e : Env) : Proc RestConfig := do
  emit (.GetConfigOrDie e.getConfigOrDie)
  match e.getConfigOrDie with
  | some c => pure c
  | none => os.Exit 1

/-- Go `filteredcache.NewFilteredCacheBuilder`. -/
@[simp] def filteredcache.NewFilteredCacheBuilder (gvkLabelMap : SelectorMap) : Proc NewCacheFunc := do
  emit (.NewFilteredCacheBuilder gvkLabelMap)
  pure (.filteredCacheBuilder gvkLabelMap)

/-- The manager of a result, `none` (nil) when it is an error. -/
@[simp] def managerOf : Except GoError Manager → Option Manager
  | .ok mgr => some mgr
  | .error _ => none

/-- The error of a result, `none` (nil) when there is none. -/
@[simp] def errorOf : Except GoError Manager → Option GoError
  | .ok _ => none
  | .error err => some err

/-- Go `ctrl.NewManager`: a manager with a nil error, or an error. -/
@[simp] def ctrl.NewManager (e : Env) (config : RestConfig) (opts : Options) :
    Proc (Except GoError Manager) := do
  emit (.NewManager config opts (managerOf e.newManager) (errorOf e.newManager))
  pure e.newManager

/-- Go `mgr.GetScheme()`. -/
@[simp] def Manager.GetScheme (mgr : Manager) : Proc RuntimeScheme := do
  emit (.GetScheme mgr mgr.scheme)
  pure mgr.scheme

/-- Go `mgr.GetAPIReader()`. -/
@[simp] def Manager.GetAPIReader (mgr : Manager) : Proc APIReader := do
  emit (.GetAPIReader mgr mgr.apiReader)
  pure mgr.apiReader

/-- The error returned by the `AddToScheme` of package `pkg`. -/
@[simp] def Env.addToScheme (e : Env) : SchemePkg → Option GoError
  | .apis => e.apisAddToScheme
  | .v1 => e.v1AddToScheme
  | .clusterv1beta1 => e.clusterv1beta1AddToScheme
  | .clusterv1 => e.clusterv1AddToScheme

/-- The `AddToScheme` of package `pkg`. -/
@[simp] def AddToScheme (e : Env) (pkg : SchemePkg) (s : RuntimeScheme) : Proc (Option GoError) := do
  emit (.AddToScheme pkg s (e.addToScheme pkg))
  pure (e.addToScheme pkg)

/-- Go `controller.AddGitOpsClusterToManager`. -/
@[simp] def controller.AddGitOpsClusterToManager (e : Env) (mgr : Manager) : Proc (Option GoError) := do
  emit (.AddGitOpsClusterToManager mgr e.addGitOpsClusterToManager)
  pure e.addGitOpsClusterToManager

/-- Go `signals.SetupSignalHandler`. -/
@[simp] def signals.SetupSignalHandler (e : Env) : Proc Context := do
  emit (.SetupSignalHandler e.setupSignalHandler)
  pure e.setupSignalHandler

/-- Modelled from the spec: the body of `utils.DetectClusterRegistry` (package
`utils` of this repository) is not part of the source.  The spec has it launch
the detection as a background task on which startup does not block, so for its
caller it is a call that takes the context and the reader and returns at once. -/
@[simp] def utils.DetectClusterRegistry (ctx : Context) (reader : APIReader) : Proc Unit :=
  emit (.DetectClusterRegistry ctx reader)

/-- Go `mgr.Start`. -/
@[simp] def Manager.Start (e : Env) (mgr : Manager) (ctx : Context) : Proc (Option GoError) := do
  emit (.Start mgr ctx e.start)
  pure e.start

/-! ## The two functions of `manager.go` -/

/-- The local variable `filteredSecretMap` of `RunManager`: cache only the
managed cluster secrets. -/
def filteredSecretMap : SelectorMap :=
  [(v1.SchemeGroupVersion.WithKind "Secret",
    { LabelSelector :=
        "apps.open-cluster-management.io/cluster-name,argocd.argoproj.io/secret-type==cluster" })]

/-- Go `RunManager`: starts the actual manager. -/
def RunManager (e : Env) : Proc Unit := do
  let mut enableLeaderElection := false
  let err ← rest.InClusterConfig e
  if err = none then
    klog.Info [.str "LeaderElection enabled as running in a cluster"]
    enableLeaderElection := true
  else
    klog.Info [.str "LeaderElection disabled as not running in a cluster"]
  klog.Info [.str "Leader election settings",
    .str "leaseDuration", .dur e.options.LeaderElectionLeaseDuration,
    .str "renewDeadline", .dur e.options.LeaderElectionRenewDeadline,
    .str "retryPeriod", .dur e.options.LeaderElectionRetryPeriod]
  -- Create a new Cmd to provide shared dependencies and start components
  let config ← ctrl.GetConfigOrDie e
  let newCache ← filteredcache.NewFilteredCacheBuilder filteredSecretMap
  let res ← ctrl.NewManager e config
    { MetricsBindAddress := fmt.Sprintf_s_colon_d e.metricsHost e.metricsPort
      Port := e.operatorMetricsPort
      LeaderElection := enableLeaderElection
      LeaderElectionID := "multicloud-operators-gitopscluster-leader.open-cluster-management.io"
      LeaderElectionNamespace := "kube-system"
      NewCache := newCache
      LeaseDuration := some e.options.LeaderElectionLeaseDuration
      RenewDeadline := some e.options.LeaderElectionRenewDeadline
      RetryPeriod := some e.options.LeaderElectionRetryPeriod
      NewClient := .NewNonCachingClient }
  let mgr ← match res with
    | .error err => do
      klog.Error [.err err, .str ""]
      os.Exit 1
    | .ok mgr => pure mgr
  klog.Info [.str "Registering GitOpsCluster components."]
  -- Setup Scheme for all resources
  if let some err ← AddToScheme e .apis (← mgr.GetScheme) then
    klog.Error [.err err, .str ""]
    os.Exit 1
  if let some err ← AddToScheme e .v1 (← mgr.GetScheme) then
    klog.Error [.err err, .str ""]
    os.Exit 1
  if let some err ← AddToScheme e .clusterv1beta1 (← mgr.GetScheme) then
    klog.Error [.err err, .str ""]
    os.Exit 1
  if let some err ← AddToScheme e .clusterv1 (← mgr.GetScheme) then
    klog.Error [.err err, .str ""]
    os.Exit 1
  -- Setup all Controllers
  if let some err ← controller.AddGitOpsClusterToManager e mgr then
    klog.Error [.err err, .str ""]
    os.Exit 1
  let sig ← signals.SetupSignalHandler e
  klog.Info [.str "Detecting ACM cluster API service..."]
  utils.DetectClusterRegistry sig (← mgr.GetAPIReader)
  klog.Info [.str "Starting the Cmd."]
  -- Start the Cmd
  if let some err ← mgr.Start e sig then
    klog.Error [.err err, .str "Manager exited non-zero"]
    os.Exit 1

/-- A `cache.Cache`, identified by a handle. -/
abbrev Cache := Nat

/-- A `client.Object`, identified by a handle. -/
abbrev ClientObject := Nat

/-- Go `client.Options`: the scheme and the REST mapper, nil (`none`) when left out. -/
structure ClientOptions where
  Scheme : Option RuntimeScheme := none
  Mapper : Option Nat := none
deriving DecidableEq, Repr

/-- The global `scheme.Scheme` of `k8s.io/client-go/kubernetes/scheme`. -/
def scheme.Scheme : RuntimeScheme := 0

set_option linter.unusedVariables false in
/-- Go `NewNonCachingClient`; `clientNew` is `client.New` of controller-runtime,
`Client` the type of the clients it returns. -/
def NewNonCachingClient {Client : Type}
    (clientNew : RestConfig → ClientOptions → Option Client × Option GoError)
    (cache : Cache) (config : RestConfig) (options : ClientOptions)
    (uncachedObjects : List ClientObject) : Option Client × Option GoError :=
  clientNew config { Scheme := some scheme.Scheme }

/-! ## Sample environments -/

/-- A run inside a cluster in which every collaborator succeeds. -/
def envInCluster : Env :=
  { metricsHost := metricsHost
    metricsPort := metricsPort
    operatorMetricsPort := operatorMetricsPort
    options :=
      { LeaderElectionLeaseDuration := 137000000000
        LeaderElectionRenewDeadline := 107000000000
        LeaderElectionRetryPeriod := 26000000000 }
    inClusterConfig := none
    getConfigOrDie := some 7
    newManager := .ok { scheme := 3, apiReader := 4 }
    apisAddToScheme := none
    v1AddToScheme := none
    clusterv1beta1AddToScheme := none
    clusterv1AddToScheme := none
    addGitOpsClusterToManager := none
    setupSignalHandler := 9
    start := none }

/-- A run outside a cluster in which every collaborator succeeds. -/
def envExternal : Env :=
  { envInCluster with inClusterConfig := some "unable to load in-cluster configuration" }

/-- A run in which no kubeconfig is found: `ctrl.GetConfigOrDie` exits, and no
collaborator that is called returns an error. -/
def envNoKubeconfig : Env :=
  { envInCluster with getConfigOrDie := none }

/-- A run in which `ctrl.NewManager` fails. -/
def envNewManagerFails : Env :=
  { envInCluster with newManager := .error "invalid bind address" }

/-- A run in which the third scheme registration, `clusterv1beta1.AddToScheme`, fails. -/
def envThirdRegistrationFails : Env :=
  { envInCluster with clusterv1beta1AddToScheme := some "type already registered" }

/-- A run in which the fourth scheme registration, `clusterv1.AddToScheme`, fails. -/
def envFourthRegistrationFails : Env :=
  { envInCluster with clusterv1AddToScheme := some "no kind for type" }

/-- A run in which `controller.AddGitOpsClusterToManager` fails. -/
def envControllerFails : Env :=
  { envInCluster with addGitOpsClusterToManager := some "no kind is registered" }

/-! ## Properties of a run -/

/-- Some collaborator among manager construction, the four scheme
registrations, controller registration and the run loop returns an error. -/
def Env.listedError (e : Env) : Prop :=
  errorOf e.newManager ≠ none ∨ e.apisAddToScheme ≠ none ∨ e.v1AddToScheme ≠ none ∨
    e.clusterv1beta1AddToScheme ≠ none ∨ e.clusterv1AddToScheme ≠ none ∨
    e.addGitOpsClusterToManager ≠ none ∨ e.start ≠ none

instance (e : Env) : Decidable e.listedError := by
  unfold Env.listedError
  infer_instance

/-- The order in which the source calls the four `AddToScheme` functions. -/
def registrationOrder : List SchemePkg := [.apis, .v1, .clusterv1beta1, .clusterv1]

/-- The place of a package in `registrationOrder`, counted from 1. -/
@[simp] def SchemePkg.position : SchemePkg → Nat
  | .apis => 1
  | .v1 => 2
  | .clusterv1beta1 => 3
  | .clusterv1 => 4

/-- The scheme registrations of a trace, in order: package, scheme, error returned. -/
def registrations : List Event → List (SchemePkg × RuntimeScheme × Option GoError)
  | [] => []
  | .AddToScheme pkg s err :: t => (pkg, s, err) :: registrations t
  | _ :: t => registrations t

/-- The calls of `ctrl.NewManager` in a trace. -/
def newManagerCalls : List Event → List (RestConfig × Options)
  | [] => []
  | .NewManager config opts _ _ :: t => (config, opts) :: newManagerCalls t
  | _ :: t => newManagerCalls t

/-- The calls of `utils.DetectClusterRegistry` in a trace. -/
def detectCalls : List Event → List (Context × APIReader)
  | [] => []
  | .DetectClusterRegistry ctx reader :: t => (ctx, reader) :: detectCalls t
  | _ :: t => detectCalls t

/-- The event is a call of klog. -/
def Event.isLog : Event → Bool
  | .klogInfo _ => true
  | .klogError _ => true
  | _ => false

/-- The event is one of the steps that follow manager construction: a scheme
registration (with its `GetScheme`), controller registration, the signal
handler, the prober (with its `GetAPIReader`) or the run loop. -/
def Event.isLaterStep : Event → Bool
  | .GetScheme _ _ => true
  | .AddToScheme _ _ _ => true
  | .AddGitOpsClusterToManager _ _ => true
  | .SetupSignalHandler _ => true
  | .GetAPIReader _ _ => true
  | .DetectClusterRegistry _ _ => true
  | .Start _ _ _ => true
  | _ => false

/-! ## The trace of a run in closed form

`RunManager_trace` below proves that `runTrace` is the trace of `RunManager`;
the properties of a run are then read off these lists. -/

/-- The options of the call of `ctrl.NewManager`, as a function of the environment. -/
def managerOptions (e : Env) : Options :=
  { MetricsBindAddress := fmt.Sprintf_s_colon_d e.metricsHost e.metricsPort
    Port := e.operatorMetricsPort
    LeaderElection := decide (e.inClusterConfig = none)
    LeaderElectionID := "multicloud-operators-gitopscluster-leader.open-cluster-management.io"
    LeaderElectionNamespace := "kube-system"
    NewCache := .filteredCacheBuilder filteredSecretMap
    LeaseDuration := some e.options.LeaderElectionLeaseDuration
    RenewDeadline := some e.options.LeaderElectionRenewDeadline
    RetryPeriod := some e.options.LeaderElectionRetryPeriod
    NewClient := .NewNonCachingClient }

/-- The calls up to and including `ctrl.GetConfigOrDie`. -/
def detectionTrace (e : Env) : List Event :=
  [.InClusterConfig e.inClusterConfig,
   .klogInfo [.str (if e.inClusterConfig = none
      then "LeaderElection enabled as running in a cluster"
      else "LeaderElection disabled as not running in a cluster")],
   .klogInfo [.str "Leader election settings",
     .str "leaseDuration", .dur e.options.LeaderElectionLeaseDuration,
     .str "renewDeadline", .dur e.options.LeaderElectionRenewDeadline,
     .str "retryPeriod", .dur e.options.LeaderElectionRetryPeriod],
   .GetConfigOrDie e.getConfigOrDie]

/-- The calls of the run loop, the last step. -/
def startTrace (e : Env) (mgr : Manager) : List Event :=
  [.SetupSignalHandler e.setupSignalHandler,
   .klogInfo [.str "Detecting ACM cluster API service..."],
   .GetAPIReader mgr mgr.apiReader,
   .DetectClusterRegistry e.setupSignalHandler mgr.apiReader,
   .klogInfo [.str "Starting the Cmd."],
   .Start mgr e.setupSignalHandler e.start] ++
  match e.start with
  | some err => [.klogError [.err err, .str "Manager exited non-zero"]]
  | none => []

/-- The calls from controller registration on. -/
def controllerTrace (e : Env) (mgr : Manager) : List Event :=
  .AddGitOpsClusterToManager mgr e.addGitOpsClusterToManager ::
  match e.addGitOpsClusterToManager with
  | some err => [.klogError [.err err, .str ""]]
  | none => startTrace e mgr

/-- The calls from the first scheme registration on. -/
def registrationTrace (e : Env) (mgr : Manager) : List Event :=
  .GetScheme mgr mgr.scheme :: .AddToScheme .apis mgr.scheme e.apisAddToScheme ::
  match e.apisAddToScheme with
  | some err => [.klogError [.err err, .str ""]]
  | none =>
    .GetScheme mgr mgr.scheme :: .AddToScheme .v1 mgr.scheme e.v1AddToScheme ::
    match e.v1AddToScheme with
    | some err => [.klogError [.err err, .str ""]]
    | none =>
      .GetScheme mgr mgr.scheme ::
      .AddToScheme .clusterv1beta1 mgr.scheme e.clusterv1beta1AddToScheme ::
      match e.clusterv1beta1AddToScheme with
      | some err => [.klogError [.err err, .str ""]]
      | none =>
        .GetScheme mgr mgr.scheme ::
        .AddToScheme .clusterv1 mgr.scheme e.clusterv1AddToScheme ::
        match e.clusterv1AddToScheme with
        | some err => [.klogError [.err err, .str ""]]
        | none => controllerTrace e mgr

/-- The calls of a whole run. -/
def runTrace (e : Env) : List Event :=
  detectionTrace e ++
  match e.getConfigOrDie with
  | none => []
  | some config =>
    .NewFilteredCacheBuilder filteredSecretMap ::
    .NewManager config (managerOptions e) (managerOf e.newManager) (errorOf e.newManager) ::
    match e.newManager with
    | .error err => [.klogError [.err err, .str ""]]
    | .ok mgr =>
      .klogInfo [.str "Registering GitOpsCluster components."] :: registrationTrace e mgr

/-! ## Label selectors

The string of a `filteredcache.Selector` is a Kubernetes label selector.  The
part of that syntax the selector of this file uses: requirements are separated
by commas and all of them must hold (AND); a requirement is a bare key (the
label exists), `!key` (it does not), `key=value` or `key==value` (it has that
value) or `key!=value` (it has not). -/

/-- One requirement of a label selector. -/
inductive Requirement where
  | labelExists (key : String)
  | labelDoesNotExist (key : String)
  | labelEquals (key value : String)
  | labelNotEquals (key value : String)
deriving DecidableEq, Repr

/-- Split at the commas. -/
def splitOnComma : List Char → List (List Char)
  | [] => [[]]
  | c :: rest =>
    if c = ',' then [] :: splitOnComma rest
    else
      match splitOnComma rest with
      | [] => [[c]]
      | w :: ws => (c :: w) :: ws

/-- Split a requirement at its first operator, `=`, `==` or `!=`: the key, and
when there is an operator whether it is an equality and the value. -/
def splitOnOperator : List Char → List Char × Option (Bool × List Char)
  | [] => ([], none)
  | [c] => if c = '=' then ([], some (true, [])) else ([c], none)
  | c :: d :: rest =>
    if c = '=' ∧ d = '=' then ([], some (true, rest))
    else if c = '!' ∧ d = '=' then ([], some (false, rest))
    else if c = '=' then ([], some (true, d :: rest))
    else
      match splitOnOperator (d :: rest) with
      | (key, r) => (c :: key, r)

/-- Read one requirement. -/
def parseRequirement (cs : List Char) : Requirement :=
  match splitOnOperator cs with
  | (key, some (true, value)) => .labelEquals (String.mk key) (String.mk value)
  | (key, some (false, value)) => .labelNotEquals (String.mk key) (String.mk value)
  | ('!' :: key, none) => .labelDoesNotExist (String.mk key)
  | (key, none) => .labelExists (String.mk key)

/-- The requirements of a label selector, all of which an object must meet. -/
def parseLabelSelector (selector : String) : List Requirement :=
  (splitOnComma selector.data).map parseRequirement

/-! ## Lemmas on the monad -/

@[simp] theorem Proc.bind_eq {α β : Type} (m : Proc α) (f : α → Proc β) :
    (m >>= f) = Proc.bind m f := rfl

@[simp] theorem Proc.pure_eq {α : Type} (a : α) : (pure a : Proc α) = Proc.ret a [] := rfl

/-- The trace of `RunManager` is the closed form `runTrace`. -/
theorem RunManager_trace (e : Env) : (RunManager e).trace = runTrace e := by
  obtain ⟨host, port, oport, opts, ic, gc, nm, a1, a2, a3, a4, ctl, sig, st⟩ := e
  rcases gc with _ | gc
  · cases ic <;> rfl
  rcases nm with nm | nm
  · cases ic <;> rfl
  rcases a1 with _ | a1
  swap
  · cases ic <;> rfl
  rcases a2 with _ | a2
  swap
  · cases ic <;> rfl
  rcases a3 with _ | a3
  swap
  · cases ic <;> rfl
  rcases a4 with _ | a4
  swap
  · cases ic <;> rfl
  rcases ctl with _ | ctl
  swap
  · cases ic <;> rfl
  rcases st with _ | st <;> cases ic <;> rfl

/-! ## How a run ends -/

/-- The run exits with status 1 when `ctrl.GetConfigOrDie` finds no config or a
listed collaborator returns an error, and returns otherwise. -/
theorem RunManager_outcome (e : Env) :
    (RunManager e).outcome =
      if e.getConfigOrDie = none ∨ e.listedError then Outcome.exited 1 else Outcome.returned := by
  obtain ⟨host, port, oport, opts, ic, gc, nm, a1, a2, a3, a4, ctl, sig, st⟩ := e
  rcases gc with _ | gc
  · cases ic <;> rfl
  rcases nm with nm | nm
  · cases ic <;> rfl
  rcases a1 with _ | a1
  swap
  · cases ic <;> rfl
  rcases a2 with _ | a2
  swap
  · cases ic <;> rfl
  rcases a3 with _ | a3
  swap
  · cases ic <;> rfl
  rcases a4 with _ | a4
  swap
  · cases ic <;> rfl
  rcases ctl with _ | ctl
  swap
  · cases ic <;> rfl
  rcases st with _ | st <;> cases ic <;> rfl

/-- Claim C1, as the code has it: `RunManager` ends the process with exit
status 1 if and only if `ctrl.GetConfigOrDie` ends it (no config is found) or
at least one of manager construction, the four scheme registrations,
controller registration and the run loop returns an error; in every other case
it returns normally; and the result of in-cluster detection never changes how
the run ends. -/
theorem RunManager_exit_status (e : Env) :
    ((RunManager e).outcome = Outcome.exited 1 ↔ (e.getConfigOrDie = none ∨ e.listedError)) ∧
    ((RunManager e).outcome = Outcome.returned ↔ ¬ (e.getConfigOrDie = none ∨ e.listedError)) ∧
    (∀ ic : Option GoError,
      (RunManager { e with inClusterConfig := ic }).outcome = (RunManager e).outcome) := by
  refine ⟨?_, ?_, ?_⟩
  · rw [RunManager_outcome]
    by_cases h : e.getConfigOrDie = none ∨ e.listedError <;> simp [h]
  · rw [RunManager_outcome]
    by_cases h : e.getConfigOrDie = none ∨ e.listedError <;> simp [h]
  · intro ic
    rw [RunManager_outcome, RunManager_outcome]
    rfl

/-- Claim C1 as stated fails: when no kubeconfig is found the process exits
with status 1 although none of the listed collaborators returns an error. -/
theorem RunManager_exit_without_listed_error :
    (RunManager envNoKubeconfig).outcome = Outcome.exited 1 ∧ ¬ envNoKubeconfig.listedError := by
  refine ⟨rfl, ?_⟩
  simp [Env.listedError, envNoKubeconfig, envInCluster]


/-! ## Manager construction -/

/-- After manager construction a run only performs later steps and logs. -/
theorem registrationTrace_later (e : Env) (mgr : Manager) :
    ∀ ev ∈ registrationTrace e mgr, ev.isLaterStep = true ∨ ev.isLog = true := by
  obtain ⟨host, port, oport, options, ic, gc, nm, a1, a2, a3, a4, ctl, sig, st⟩ := e
  rcases a1 with _ | a1
  swap
  · simp [registrationTrace, Event.isLaterStep, Event.isLog]
  rcases a2 with _ | a2
  swap
  · simp [registrationTrace, Event.isLaterStep, Event.isLog]
  rcases a3 with _ | a3
  swap
  · simp [registrationTrace, Event.isLaterStep, Event.isLog]
  rcases a4 with _ | a4
  swap
  · simp [registrationTrace, Event.isLaterStep, Event.isLog]
  rcases ctl with _ | ctl
  swap
  · simp [registrationTrace, controllerTrace, Event.isLaterStep, Event.isLog]
  rcases st with _ | st <;>
    simp [registrationTrace, controllerTrace, startTrace, Event.isLaterStep, Event.isLog]

/-- A call of `ctrl.NewManager` in a run has the config returned by
`ctrl.GetConfigOrDie`, the options `managerOptions` and the result of the
environment. -/
theorem mem_trace_newManager {e : Env} {config : RestConfig} {opts : Options}
    {mgr : Option Manager} {err : Option GoError}
    (h : Event.NewManager config opts mgr err ∈ (RunManager e).trace) :
    e.getConfigOrDie = some config ∧ opts = managerOptions e ∧
      mgr = managerOf e.newManager ∧ err = errorOf e.newManager := by
  rw [RunManager_trace] at h
  cases hgc : e.getConfigOrDie with
  | none => simp [runTrace, detectionTrace, hgc] at h
  | some c =>
    cases hnm : e.newManager with
    | error er =>
      simp [runTrace, detectionTrace, hgc, hnm] at h
      simp [h]
    | ok m =>
      simp [runTrace, detectionTrace, hgc, hnm] at h
      rcases h with h | h
      · simp [h]
      · have := registrationTrace_later e m _ h
        simp [Event.isLaterStep, Event.isLog] at this

/-- A call of `rest.InClusterConfig` in a run returns the error of the environment. -/
theorem mem_trace_inClusterConfig {e : Env} {detected : Option GoError}
    (h : Event.InClusterConfig detected ∈ (RunManager e).trace) :
    detected = e.inClusterConfig := by
  rw [RunManager_trace] at h
  cases hgc : e.getConfigOrDie with
  | none =>
    simp [runTrace, detectionTrace, hgc] at h
    exact h
  | some c =>
    cases hnm : e.newManager with
    | error er =>
      simp [runTrace, detectionTrace, hgc, hnm] at h
      exact h
    | ok m =>
      simp [runTrace, detectionTrace, hgc, hnm] at h
      rcases h with h | h
      · exact h
      · have := registrationTrace_later e m _ h
        simp [Event.isLaterStep, Event.isLog] at this

/-- A call of `filteredcache.NewFilteredCacheBuilder` in a run has the argument
`filteredSecretMap`. -/
theorem mem_trace_newFilteredCacheBuilder {e : Env} {gvkLabelMap : SelectorMap}
    (h : Event.NewFilteredCacheBuilder gvkLabelMap ∈ (RunManager e).trace) :
    gvkLabelMap = filteredSecretMap := by
  rw [RunManager_trace] at h
  cases hgc : e.getConfigOrDie with
  | none => simp [runTrace, detectionTrace, hgc] at h
  | some c =>
    cases hnm : e.newManager with
    | error er =>
      simp [runTrace, detectionTrace, hgc, hnm] at h
      exact h
    | ok m =>
      simp [runTrace, detectionTrace, hgc, hnm] at h
      rcases h with h | h
      · exact h
      · have := registrationTrace_later e m _ h
        simp [Event.isLaterStep, Event.isLog] at this

/-- Claim C7: in a run in which `ctrl.NewManager` returns an error, the process
exits with status 1 at once: the trace ends with that call and the log of its
error, `ctrl.NewManager` is called exactly once, and no later step (scheme
registration, controller registration, signal handler, prober, run loop) is
performed. -/
theorem RunManager_newManager_error (e : Env) (config : RestConfig) (opts : Options)
    (mgr : Option Manager) (err : GoError)
    (h : Event.NewManager config opts mgr (some err) ∈ (RunManager e).trace) :
    (RunManager e).outcome = Outcome.exited 1 ∧
    newManagerCalls (RunManager e).trace = [(config, opts)] ∧
    (∀ ev ∈ (RunManager e).trace, ev.isLaterStep = false) ∧
    [Event.NewManager config opts mgr (some err),
      Event.klogError [LogArg.err err, LogArg.str ""]] <:+ (RunManager e).trace := by
  obtain ⟨hc, ho, hm, he⟩ := mem_trace_newManager h
  have hnm : e.newManager = Except.error err := by
    cases hn : e.newManager <;> simp_all
  rw [RunManager_trace, RunManager_outcome]
  refine ⟨by simp [Env.listedError, hnm],
    by simp [runTrace, detectionTrace, newManagerCalls, hc, hnm, ho],
    by simp [runTrace, detectionTrace, Event.isLaterStep, hc, hnm],
    by simp [runTrace, detectionTrace, List.suffix_cons_iff, hc, hnm, ho, hm]⟩

/-- Claim C7 at `envNewManagerFails`. -/
theorem RunManager_newManager_error_witness :
    Event.NewManager 7 (managerOptions envNewManagerFails) none (some "invalid bind address") ∈
      (RunManager envNewManagerFails).trace ∧
    (RunManager envNewManagerFails).outcome = Outcome.exited 1 ∧
    newManagerCalls (RunManager envNewManagerFails).trace =
      [(7, managerOptions envNewManagerFails)] ∧
    (∀ ev ∈ (RunManager envNewManagerFails).trace, ev.isLaterStep = false) ∧
    [Event.NewManager 7 (managerOptions envNewManagerFails) none (some "invalid bind address"),
      Event.klogError [LogArg.err "invalid bind address", LogArg.str ""]] <:+
      (RunManager envNewManagerFails).trace :=
  ⟨by decide, RunManager_newManager_error envNewManagerFails 7 (managerOptions envNewManagerFails)
    none "invalid bind address" (by decide)⟩

/-- Claim C2: in every run, the `LeaderElection` field of the options passed to
`ctrl.NewManager` is true exactly when `rest.InClusterConfig` returned no error. -/
theorem RunManager_leaderElection (e : Env) (detected : Option GoError) (config : RestConfig)
    (opts : Options) (mgr : Option Manager) (err : Option GoError)
    (hd : Event.InClusterConfig detected ∈ (RunManager e).trace)
    (hm : Event.NewManager config opts mgr err ∈ (RunManager e).trace) :
    (opts.LeaderElection = true ↔ detected = none) ∧
    (opts.LeaderElection = false ↔ detected ≠ none) := by
  obtain ⟨-, ho, -, -⟩ := mem_trace_newManager hm
  have hd' := mem_trace_inClusterConfig hd
  subst ho hd'
  simp [managerOptions]

/-- Claim C2 in a run inside a cluster, where leader election is enabled, and
in a run outside, where it is disabled. -/
theorem RunManager_leaderElection_witness :
    (Event.InClusterConfig none ∈ (RunManager envInCluster).trace ∧
      Event.NewManager 7 (managerOptions envInCluster) (some { scheme := 3, apiReader := 4 }) none ∈
        (RunManager envInCluster).trace ∧
      (managerOptions envInCluster).LeaderElection = true) ∧
    (Event.InClusterConfig (some "unable to load in-cluster configuration") ∈
        (RunManager envExternal).trace ∧
      Event.NewManager 7 (managerOptions envExternal) (some { scheme := 3, apiReader := 4 }) none ∈
        (RunManager envExternal).trace ∧
      (managerOptions envExternal).LeaderElection = false) :=
  ⟨⟨by decide, by decide,
    (RunManager_leaderElection envInCluster none 7 (managerOptions envInCluster)
      (some { scheme := 3, apiReader := 4 }) none (by decide) (by decide)).1.mpr rfl⟩,
   ⟨by decide, by decide,
    (RunManager_leaderElection envExternal (some "unable to load in-cluster configuration") 7
      (managerOptions envExternal) (some { scheme := 3, apiReader := 4 }) none
      (by decide) (by decide)).2.mpr (by decide)⟩⟩


/-! ## Scheme and controller registration -/

/-- What the trace of a run says of its scheme registrations: they are a prefix
of the order, all against the scheme of the manager; controller registration
follows four registrations without an error; a registration that returns an
error is the last one, and the run exits before controller registration. -/
theorem scheme_registration_of_trace (e : Env) :
    (registrations (RunManager e).trace).map Prod.fst <+: registrationOrder ∧
    (∀ pkg s err, Event.AddToScheme pkg s err ∈ (RunManager e).trace →
      ∃ mgr, e.newManager = Except.ok mgr ∧ s = mgr.scheme) ∧
    (∀ mgr err, Event.AddGitOpsClusterToManager mgr err ∈ (RunManager e).trace →
      registrations (RunManager e).trace =
        registrationOrder.map fun pkg => (pkg, mgr.scheme, none)) ∧
    (∀ pkg s err, Event.AddToScheme pkg s (some err) ∈ (RunManager e).trace →
      registrations (RunManager e).trace =
        ((registrationOrder.take (pkg.position - 1)).map fun p => (p, s, none)) ++
          [(pkg, s, some err)] ∧
      (registrations (RunManager e).trace).map Prod.fst = registrationOrder.take pkg.position ∧
      (RunManager e).outcome = Outcome.exited 1 ∧
      (∀ mgr r, Event.AddGitOpsClusterToManager mgr r ∉ (RunManager e).trace) ∧
      (∀ mgr ctx r, Event.Start mgr ctx r ∉ (RunManager e).trace)) := by
  rw [RunManager_trace, RunManager_outcome]
  obtain ⟨host, port, oport, options, ic, gc, nm, a1, a2, a3, a4, ctl, sig, st⟩ := e
  rcases gc with _ | gc
  · simp [runTrace, detectionTrace, registrations, registrationOrder]
  rcases nm with nm | nm
  · simp [runTrace, detectionTrace, registrations, registrationOrder]
  rcases a1 with _ | a1
  swap
  · simp [runTrace, detectionTrace, registrationTrace, registrations, registrationOrder,
      Env.listedError, List.prefix_cons_iff]
    aesop
  rcases a2 with _ | a2
  swap
  · simp [runTrace, detectionTrace, registrationTrace, registrations, registrationOrder,
      Env.listedError, List.prefix_cons_iff]
    aesop
  rcases a3 with _ | a3
  swap
  · simp [runTrace, detectionTrace, registrationTrace, registrations, registrationOrder,
      Env.listedError, List.prefix_cons_iff]
    aesop
  rcases a4 with _ | a4
  swap
  · simp [runTrace, detectionTrace, registrationTrace, registrations, registrationOrder,
      Env.listedError, List.prefix_cons_iff]
    aesop
  rcases ctl with _ | ctl
  swap
  · simp [runTrace, detectionTrace, registrationTrace, controllerTrace, registrations,
      registrationOrder, Env.listedError, List.prefix_cons_iff]
    aesop
  rcases st with _ | st <;>
  · simp [runTrace, detectionTrace, registrationTrace, controllerTrace, startTrace,
      registrations, registrationOrder, Env.listedError, List.prefix_cons_iff]
    aesop


/-- When the manager is built and the registrations before the one of `pkg`
return no error, the registration of `pkg` is attempted. -/
theorem addToScheme_mem_trace (e : Env) (config : RestConfig) (mgr : Manager) (pkg : SchemePkg)
    (hc : e.getConfigOrDie = some config) (hm : e.newManager = Except.ok mgr)
    (hearlier : ∀ p : SchemePkg, p.position < pkg.position → e.addToScheme p = none) :
    Event.AddToScheme pkg mgr.scheme (e.addToScheme pkg) ∈ (RunManager e).trace := by
  rw [RunManager_trace]
  cases pkg with
  | apis => simp [runTrace, registrationTrace, hc, hm]
  | v1 =>
    have h1 : e.apisAddToScheme = none := by simpa using hearlier SchemePkg.apis (by simp)
    simp [runTrace, registrationTrace, hc, hm, h1]
  | clusterv1beta1 =>
    have h1 : e.apisAddToScheme = none := by simpa using hearlier SchemePkg.apis (by simp)
    have h2 : e.v1AddToScheme = none := by simpa using hearlier SchemePkg.v1 (by simp)
    simp [runTrace, registrationTrace, hc, hm, h1, h2]
  | clusterv1 =>
    have h1 : e.apisAddToScheme = none := by simpa using hearlier SchemePkg.apis (by simp)
    have h2 : e.v1AddToScheme = none := by simpa using hearlier SchemePkg.v1 (by simp)
    have h3 : e.clusterv1beta1AddToScheme = none := by
      simpa using hearlier SchemePkg.clusterv1beta1 (by simp)
    simp [runTrace, registrationTrace, hc, hm, h1, h2, h3]

/-- When the manager is built and the four registrations return no error, the
four are attempted in order and controller registration follows. -/
theorem registrations_of_success (e : Env) (config : RestConfig) (mgr : Manager)
    (hc : e.getConfigOrDie = some config) (hm : e.newManager = Except.ok mgr)
    (hall : ∀ p : SchemePkg, e.addToScheme p = none) :
    registrations (RunManager e).trace =
      registrationOrder.map (fun pkg => (pkg, mgr.scheme, none)) ∧
    Event.AddGitOpsClusterToManager mgr e.addGitOpsClusterToManager ∈ (RunManager e).trace := by
  have h1 : e.apisAddToScheme = none := hall SchemePkg.apis
  have h2 : e.v1AddToScheme = none := hall SchemePkg.v1
  have h3 : e.clusterv1beta1AddToScheme = none := hall SchemePkg.clusterv1beta1
  have h4 : e.clusterv1AddToScheme = none := hall SchemePkg.clusterv1
  rw [RunManager_trace]
  cases hctl : e.addGitOpsClusterToManager with
  | some err =>
    simp [runTrace, detectionTrace, registrationTrace, controllerTrace, registrations,
      registrationOrder, hc, hm, h1, h2, h3, h4, hctl]
  | none =>
    cases hst : e.start <;>
      simp [runTrace, detectionTrace, registrationTrace, controllerTrace, startTrace,
        registrations, registrationOrder, hc, hm, h1, h2, h3, h4, hctl, hst]

/-- Claim C3: the four scheme registrations are attempted in the order apis,
core v1, clusterv1beta1, clusterv1 (the registered packages of a run are a
prefix of that order), all against the scheme of the manager that
`ctrl.NewManager` returned; controller registration is reached only after all
four returned no error; and when the registration of package `pkg`, the k-th
of the order, returns an error, the registrations of the run are exactly the
first k (the earlier ones without an error), the process exits with status 1,
and neither `controller.AddGitOpsClusterToManager` nor `mgr.Start` is called.
In terms of the results of the collaborators: once the manager is built, the
registration of `pkg` is attempted whenever the registrations before it return
no error; if it is then the first to return an error, exactly the first k are
attempted, the process exits with status 1 and controller registration and
the run loop are not called; and if none of the four returns an error, all
four are attempted, in order, and controller registration follows. -/
theorem RunManager_scheme_registration (e : Env) :
    (registrations (RunManager e).trace).map Prod.fst <+: registrationOrder ∧
    (∀ pkg s err, Event.AddToScheme pkg s err ∈ (RunManager e).trace →
      ∃ mgr, e.newManager = Except.ok mgr ∧ s = mgr.scheme) ∧
    (∀ mgr err, Event.AddGitOpsClusterToManager mgr err ∈ (RunManager e).trace →
      registrations (RunManager e).trace =
        registrationOrder.map fun pkg => (pkg, mgr.scheme, none)) ∧
    (∀ pkg s err, Event.AddToScheme pkg s (some err) ∈ (RunManager e).trace →
      registrations (RunManager e).trace =
        ((registrationOrder.take (pkg.position - 1)).map fun p => (p, s, none)) ++
          [(pkg, s, some err)] ∧
      (registrations (RunManager e).trace).map Prod.fst = registrationOrder.take pkg.position ∧
      (RunManager e).outcome = Outcome.exited 1 ∧
      (∀ mgr r, Event.AddGitOpsClusterToManager mgr r ∉ (RunManager e).trace) ∧
      (∀ mgr ctx r, Event.Start mgr ctx r ∉ (RunManager e).trace)) ∧
    (∀ config mgr pkg, e.getConfigOrDie = some config → e.newManager = Except.ok mgr →
      (∀ p : SchemePkg, p.position < pkg.position → e.addToScheme p = none) →
      Event.AddToScheme pkg mgr.scheme (e.addToScheme pkg) ∈ (RunManager e).trace) ∧
    (∀ config mgr pkg err, e.getConfigOrDie = some config → e.newManager = Except.ok mgr →
      (∀ p : SchemePkg, p.position < pkg.position → e.addToScheme p = none) →
      e.addToScheme pkg = some err →
      registrations (RunManager e).trace =
        ((registrationOrder.take (pkg.position - 1)).map fun p => (p, mgr.scheme, none)) ++
          [(pkg, mgr.scheme, some err)] ∧
      (registrations (RunManager e).trace).map Prod.fst = registrationOrder.take pkg.position ∧
      (RunManager e).outcome = Outcome.exited 1 ∧
      (∀ m r, Event.AddGitOpsClusterToManager m r ∉ (RunManager e).trace) ∧
      (∀ m ctx r, Event.Start m ctx r ∉ (RunManager e).trace)) ∧
    (∀ config mgr, e.getConfigOrDie = some config → e.newManager = Except.ok mgr →
      (∀ p : SchemePkg, e.addToScheme p = none) →
      registrations (RunManager e).trace =
        registrationOrder.map (fun pkg => (pkg, mgr.scheme, none)) ∧
      Event.AddGitOpsClusterToManager mgr e.addGitOpsClusterToManager ∈
        (RunManager e).trace) := by
  obtain ⟨h1, h2, h3, h4⟩ := scheme_registration_of_trace e
  refine ⟨h1, h2, h3, h4, ?_, ?_, ?_⟩
  · intro config mgr pkg hc hm hearlier
    exact addToScheme_mem_trace e config mgr pkg hc hm hearlier
  · intro config mgr pkg err hc hm hearlier herr
    have hmem := addToScheme_mem_trace e config mgr pkg hc hm hearlier
    rw [herr] at hmem
    exact h4 pkg mgr.scheme err hmem
  · intro config mgr hc hm hall
    exact registrations_of_success e config mgr hc hm hall

/-- Claim C3 at three runs.  At `envThirdRegistrationFails` the third
registration fails: three registrations are attempted and the run exits before
controller registration.  At `envFourthRegistrationFails` the fourth fails:
all four are attempted and the run exits before controller registration.  At
`envInCluster` none fails: all four are attempted and controller registration
follows. -/
theorem RunManager_scheme_registration_witness :
    (Event.AddToScheme SchemePkg.clusterv1beta1 3 (some "type already registered") ∈
        (RunManager envThirdRegistrationFails).trace ∧
      (registrations (RunManager envThirdRegistrationFails).trace =
          [(SchemePkg.apis, 3, none), (SchemePkg.v1, 3, none),
            (SchemePkg.clusterv1beta1, 3, some "type already registered")] ∧
        (registrations (RunManager envThirdRegistrationFails).trace).map Prod.fst =
          [SchemePkg.apis, SchemePkg.v1, SchemePkg.clusterv1beta1] ∧
        (RunManager envThirdRegistrationFails).outcome = Outcome.exited 1 ∧
        (∀ mgr r, Event.AddGitOpsClusterToManager mgr r ∉
          (RunManager envThirdRegistrationFails).trace) ∧
        (∀ mgr ctx r, Event.Start mgr ctx r ∉ (RunManager envThirdRegistrationFails).trace))) ∧
    ((envFourthRegistrationFails.getConfigOrDie = some 7 ∧
        envFourthRegistrationFails.newManager = Except.ok { scheme := 3, apiReader := 4 } ∧
        (∀ p : SchemePkg, p.position < SchemePkg.clusterv1.position →
          envFourthRegistrationFails.addToScheme p = none) ∧
        envFourthRegistrationFails.addToScheme SchemePkg.clusterv1 = some "no kind for type") ∧
      (registrations (RunManager envFourthRegistrationFails).trace =
          [(SchemePkg.apis, 3, none), (SchemePkg.v1, 3, none),
            (SchemePkg.clusterv1beta1, 3, none),
            (SchemePkg.clusterv1, 3, some "no kind for type")] ∧
        (registrations (RunManager envFourthRegistrationFails).trace).map Prod.fst =
          [SchemePkg.apis, SchemePkg.v1, SchemePkg.clusterv1beta1, SchemePkg.clusterv1] ∧
        (RunManager envFourthRegistrationFails).outcome = Outcome.exited 1 ∧
        (∀ mgr r, Event.AddGitOpsClusterToManager mgr r ∉
          (RunManager envFourthRegistrationFails).trace) ∧
        (∀ mgr ctx r, Event.Start mgr ctx r ∉ (RunManager envFourthRegistrationFails).trace))) ∧
    ((envInCluster.getConfigOrDie = some 7 ∧
        envInCluster.newManager = Except.ok { scheme := 3, apiReader := 4 } ∧
        (∀ p : SchemePkg, envInCluster.addToScheme p = none)) ∧
      (registrations (RunManager envInCluster).trace =
          [(SchemePkg.apis, 3, none), (SchemePkg.v1, 3, none),
            (SchemePkg.clusterv1beta1, 3, none), (SchemePkg.clusterv1, 3, none)] ∧
        Event.AddGitOpsClusterToManager { scheme := 3, apiReader := 4 } none ∈
          (RunManager envInCluster).trace)) :=
  have hearlier : ∀ p : SchemePkg, p.position < SchemePkg.clusterv1.position →
      envFourthRegistrationFails.addToScheme p = none := by
    intro p hp
    cases p
    · rfl
    · rfl
    · rfl
    · exact absurd hp (by decide)
  have hall : ∀ p : SchemePkg, envInCluster.addToScheme p = none := by
    intro p
    cases p <;> rfl
  ⟨⟨by decide,
    (RunManager_scheme_registration envThirdRegistrationFails).2.2.2.1
      SchemePkg.clusterv1beta1 3 "type already registered" (by decide)⟩,
   ⟨⟨rfl, rfl, hearlier, rfl⟩,
    (RunManager_scheme_registration envFourthRegistrationFails).2.2.2.2.2.1
      7 { scheme := 3, apiReader := 4 } SchemePkg.clusterv1 "no kind for type"
      rfl rfl hearlier rfl⟩,
   ⟨⟨rfl, rfl, hall⟩,
    (RunManager_scheme_registration envInCluster).2.2.2.2.2.2
      7 { scheme := 3, apiReader := 4 } rfl rfl hall⟩⟩

/-- Claim C4: in a run in which `controller.AddGitOpsClusterToManager` returns
an error, the process exits with status 1, `mgr.Start` is never called, the
signal handler is not set up and the prober is not launched (nor is
`mgr.GetAPIReader` called for it). -/
theorem RunManager_controller_error (e : Env) (mgr : Manager) (err : GoError)
    (h : Event.AddGitOpsClusterToManager mgr (some err) ∈ (RunManager e).trace) :
    (RunManager e).outcome = Outcome.exited 1 ∧
    (∀ m ctx r, Event.Start m ctx r ∉ (RunManager e).trace) ∧
    (∀ ctx, Event.SetupSignalHandler ctx ∉ (RunManager e).trace) ∧
    (∀ ctx reader, Event.DetectClusterRegistry ctx reader ∉ (RunManager e).trace) ∧
    (∀ m reader, Event.GetAPIReader m reader ∉ (RunManager e).trace) ∧
    [Event.AddGitOpsClusterToManager mgr (some err),
      Event.klogError [LogArg.err err, LogArg.str ""]] <:+ (RunManager e).trace := by
  rw [RunManager_trace] at h
  rw [RunManager_trace, RunManager_outcome]
  obtain ⟨host, port, oport, options, ic, gc, nm, a1, a2, a3, a4, ctl, sig, st⟩ := e
  rcases gc with _ | gc
  · simp [runTrace, detectionTrace] at h
  rcases nm with nm | nm
  · simp [runTrace, detectionTrace] at h
  rcases a1 with _ | a1
  swap
  · simp [runTrace, detectionTrace, registrationTrace] at h
  rcases a2 with _ | a2
  swap
  · simp [runTrace, detectionTrace, registrationTrace] at h
  rcases a3 with _ | a3
  swap
  · simp [runTrace, detectionTrace, registrationTrace] at h
  rcases a4 with _ | a4
  swap
  · simp [runTrace, detectionTrace, registrationTrace] at h
  rcases ctl with _ | ctl
  · rcases st with _ | st <;>
      simp [runTrace, detectionTrace, registrationTrace, controllerTrace, startTrace] at h
  · simp [runTrace, detectionTrace, registrationTrace, controllerTrace] at h
    obtain ⟨rfl, rfl⟩ := h
    simp [runTrace, detectionTrace, registrationTrace, controllerTrace, Env.listedError,
      List.suffix_cons_iff]

/-- Claim C4 at `envControllerFails`. -/
theorem RunManager_controller_error_witness :
    Event.AddGitOpsClusterToManager { scheme := 3, apiReader := 4 } (some "no kind is registered") ∈
      (RunManager envControllerFails).trace ∧
    (RunManager envControllerFails).outcome = Outcome.exited 1 ∧
    (∀ m ctx r, Event.Start m ctx r ∉ (RunManager envControllerFails).trace) ∧
    (∀ ctx, Event.SetupSignalHandler ctx ∉ (RunManager envControllerFails).trace) ∧
    (∀ ctx reader, Event.DetectClusterRegistry ctx reader ∉ (RunManager envControllerFails).trace) ∧
    (∀ m reader, Event.GetAPIReader m reader ∉ (RunManager envControllerFails).trace) ∧
    [Event.AddGitOpsClusterToManager { scheme := 3, apiReader := 4 } (some "no kind is registered"),
      Event.klogError [LogArg.err "no kind is registered", LogArg.str ""]] <:+
      (RunManager envControllerFails).trace :=
  ⟨by decide, RunManager_controller_error envControllerFails { scheme := 3, apiReader := 4 }
    "no kind is registered" (by decide)⟩

/-! ## The prober and the run loop -/

/-- Claim C8: in a run that launches the prober, `utils.DetectClusterRegistry`
is called exactly once; apart from the logs, the calls of the run are, in this
order: in-cluster detection, `ctrl.GetConfigOrDie`, the cache builder, a
successful `ctrl.NewManager`, the four scheme registrations without an error,
controller registration without an error, `signals.SetupSignalHandler`,
`mgr.GetAPIReader`, the prober and last `mgr.Start`; the prober receives the
context `ctx` that the signal handler returned and that `mgr.Start` receives
next, and the reader that `mgr.GetAPIReader` returned. -/
theorem RunManager_prober (e : Env) (ctx : Context) (reader : APIReader)
    (h : Event.DetectClusterRegistry ctx reader ∈ (RunManager e).trace) :
    detectCalls (RunManager e).trace = [(ctx, reader)] ∧
    ∃ config mgr,
      (RunManager e).trace.filter (fun ev => !ev.isLog) =
        [Event.InClusterConfig e.inClusterConfig,
         Event.GetConfigOrDie (some config),
         Event.NewFilteredCacheBuilder filteredSecretMap,
         Event.NewManager config (managerOptions e) (some mgr) none,
         Event.GetScheme mgr mgr.scheme,
         Event.AddToScheme SchemePkg.apis mgr.scheme none,
         Event.GetScheme mgr mgr.scheme,
         Event.AddToScheme SchemePkg.v1 mgr.scheme none,
         Event.GetScheme mgr mgr.scheme,
         Event.AddToScheme SchemePkg.clusterv1beta1 mgr.scheme none,
         Event.GetScheme mgr mgr.scheme,
         Event.AddToScheme SchemePkg.clusterv1 mgr.scheme none,
         Event.AddGitOpsClusterToManager mgr none,
         Event.SetupSignalHandler ctx,
         Event.GetAPIReader mgr reader,
         Event.DetectClusterRegistry ctx reader,
         Event.Start mgr ctx e.start] := by
  rw [RunManager_trace] at h
  rw [RunManager_trace]
  obtain ⟨host, port, oport, options, ic, gc, nm, a1, a2, a3, a4, ctl, sig, st⟩ := e
  rcases gc with _ | gc
  · simp [runTrace, detectionTrace] at h
  rcases nm with nm | nm
  · simp [runTrace, detectionTrace] at h
  rcases a1 with _ | a1
  swap
  · simp [runTrace, detectionTrace, registrationTrace] at h
  rcases a2 with _ | a2
  swap
  · simp [runTrace, detectionTrace, registrationTrace] at h
  rcases a3 with _ | a3
  swap
  · simp [runTrace, detectionTrace, registrationTrace] at h
  rcases a4 with _ | a4
  swap
  · simp [runTrace, detectionTrace, registrationTrace] at h
  rcases ctl with _ | ctl
  swap
  · simp [runTrace, detectionTrace, registrationTrace, controllerTrace] at h
  rcases st with _ | st <;>
  · simp [runTrace, detectionTrace, registrationTrace, controllerTrace, startTrace] at h
    obtain ⟨rfl, rfl⟩ := h
    refine ⟨?_, gc, nm, ?_⟩ <;>
      simp [runTrace, detectionTrace, registrationTrace, controllerTrace, startTrace,
        detectCalls, Event.isLog, managerOptions]

/-- Claim C8 at `envInCluster`: the prober gets the context 9 of the signal
handler and the reader 4 of the manager. -/
theorem RunManager_prober_witness :
    Event.DetectClusterRegistry 9 4 ∈ (RunManager envInCluster).trace ∧
    detectCalls (RunManager envInCluster).trace = [(9, 4)] ∧
    ∃ config mgr,
      (RunManager envInCluster).trace.filter (fun ev => !ev.isLog) =
        [Event.InClusterConfig envInCluster.inClusterConfig,
         Event.GetConfigOrDie (some config),
         Event.NewFilteredCacheBuilder filteredSecretMap,
         Event.NewManager config (managerOptions envInCluster) (some mgr) none,
         Event.GetScheme mgr mgr.scheme,
         Event.AddToScheme SchemePkg.apis mgr.scheme none,
         Event.GetScheme mgr mgr.scheme,
         Event.AddToScheme SchemePkg.v1 mgr.scheme none,
         Event.GetScheme mgr mgr.scheme,
         Event.AddToScheme SchemePkg.clusterv1beta1 mgr.scheme none,
         Event.GetScheme mgr mgr.scheme,
         Event.AddToScheme SchemePkg.clusterv1 mgr.scheme none,
         Event.AddGitOpsClusterToManager mgr none,
         Event.SetupSignalHandler 9,
         Event.GetAPIReader mgr 4,
         Event.DetectClusterRegistry 9 4,
         Event.Start mgr 9 envInCluster.start] :=
  ⟨by decide, RunManager_prober envInCluster 9 4 (by decide)⟩


/-! ## The options of the manager -/

/-- Claim C10: in the options passed to `ctrl.NewManager`, the lease identifier
and the lease namespace are the two fixed strings, whatever the environment;
`LeaseDuration`, `RenewDeadline` and `RetryPeriod` point to the three values
of the package variable `options`, unchanged; the metrics bind address is
`metricsHost` and `metricsPort` joined by a colon, which is `0.0.0.0:8388`
for the initial values of the two variables; and the port is
`operatorMetricsPort`, initially 8688. -/
theorem RunManager_options (e : Env) (config : RestConfig) (opts : Options)
    (mgr : Option Manager) (err : Option GoError)
    (h : Event.NewManager config opts mgr err ∈ (RunManager e).trace) :
    opts.LeaderElectionID =
      "multicloud-operators-gitopscluster-leader.open-cluster-management.io" ∧
    opts.LeaderElectionNamespace = "kube-system" ∧
    opts.LeaseDuration = some e.options.LeaderElectionLeaseDuration ∧
    opts.RenewDeadline = some e.options.LeaderElectionRenewDeadline ∧
    opts.RetryPeriod = some e.options.LeaderElectionRetryPeriod ∧
    opts.MetricsBindAddress = e.metricsHost ++ ":" ++ toString e.metricsPort ∧
    opts.Port = e.operatorMetricsPort ∧
    (e.metricsHost = metricsHost → e.metricsPort = metricsPort →
      opts.MetricsBindAddress = "0.0.0.0:8388") ∧
    (e.operatorMetricsPort = operatorMetricsPort → opts.Port = 8688) := by
  obtain ⟨-, rfl, -, -⟩ := mem_trace_newManager h
  refine ⟨rfl, rfl, rfl, rfl, rfl, rfl, rfl, ?_, ?_⟩
  · intro hh hp
    simp only [managerOptions, hh, hp]
    decide
  · intro hp
    simp only [managerOptions, hp]
    rfl

/-- Claim C10 at `envExternal`, whose package variables have their initial
values and whose timings are 137 s, 107 s and 26 s. -/
theorem RunManager_options_witness :
    Event.NewManager 7 (managerOptions envExternal) (some { scheme := 3, apiReader := 4 }) none ∈
      (RunManager envExternal).trace ∧
    (managerOptions envExternal).LeaderElectionID =
      "multicloud-operators-gitopscluster-leader.open-cluster-management.io" ∧
    (managerOptions envExternal).LeaderElectionNamespace = "kube-system" ∧
    (managerOptions envExternal).LeaseDuration = some 137000000000 ∧
    (managerOptions envExternal).RenewDeadline = some 107000000000 ∧
    (managerOptions envExternal).RetryPeriod = some 26000000000 ∧
    (managerOptions envExternal).MetricsBindAddress = "0.0.0.0:8388" ∧
    (managerOptions envExternal).Port = 8688 :=
  have h := RunManager_options envExternal 7 (managerOptions envExternal)
    (some { scheme := 3, apiReader := 4 }) none (by decide)
  ⟨by decide, h.1, h.2.1, h.2.2.1, h.2.2.2.1, h.2.2.2.2.1, h.2.2.2.2.2.2.2.1 rfl rfl,
    h.2.2.2.2.2.2.2.2 rfl⟩

/-! ## The selector of the cache -/

/-- Claim C5: `filteredSecretMap` has exactly one key, the kind `Secret` of the
core group (empty group name) in version `v1`; its label selector is the given
string, which reads as two requirements joined by a comma (both must hold):
the label `apps.open-cluster-management.io/cluster-name` exists and the label
`argocd.argoproj.io/secret-type` equals `cluster`; in every run, whatever the
result of in-cluster detection, this map is the argument of
`filteredcache.NewFilteredCacheBuilder`, and the builder made from it is the
`NewCache` of the options passed to `ctrl.NewManager`. -/
theorem filteredSecretMap_selector (e : Env) :
    filteredSecretMap.map Prod.fst = [{ Group := "", Version := "v1", Kind := "Secret" }] ∧
    filteredSecretMap.map (fun kv => kv.2.LabelSelector) =
      ["apps.open-cluster-management.io/cluster-name,argocd.argoproj.io/secret-type==cluster"] ∧
    filteredSecretMap.map (fun kv => parseLabelSelector kv.2.LabelSelector) =
      [[Requirement.labelExists "apps.open-cluster-management.io/cluster-name",
        Requirement.labelEquals "argocd.argoproj.io/secret-type" "cluster"]] ∧
    (∀ gvkLabelMap, Event.NewFilteredCacheBuilder gvkLabelMap ∈ (RunManager e).trace →
      gvkLabelMap = filteredSecretMap) ∧
    (∀ config opts mgr err, Event.NewManager config opts mgr err ∈ (RunManager e).trace →
      Event.NewFilteredCacheBuilder filteredSecretMap ∈ (RunManager e).trace ∧
      opts.NewCache = NewCacheFunc.filteredCacheBuilder filteredSecretMap) := by
  refine ⟨by decide, by decide, by decide, fun _ h => mem_trace_newFilteredCacheBuilder h, ?_⟩
  intro config opts mgr err h
  obtain ⟨hc, rfl, -, -⟩ := mem_trace_newManager h
  refine ⟨?_, rfl⟩
  rw [RunManager_trace]
  simp [runTrace, hc]

/-- Claim C5 in a run inside a cluster and in a run outside: the same map
reaches the cache builder and the manager. -/
theorem filteredSecretMap_selector_witness :
    (Event.NewFilteredCacheBuilder filteredSecretMap ∈ (RunManager envInCluster).trace ∧
      Event.NewManager 7 (managerOptions envInCluster) (some { scheme := 3, apiReader := 4 }) none ∈
        (RunManager envInCluster).trace ∧
      (managerOptions envInCluster).NewCache = NewCacheFunc.filteredCacheBuilder filteredSecretMap) ∧
    (Event.NewFilteredCacheBuilder filteredSecretMap ∈ (RunManager envExternal).trace ∧
      Event.NewManager 7 (managerOptions envExternal) (some { scheme := 3, apiReader := 4 }) none ∈
        (RunManager envExternal).trace ∧
      (managerOptions envExternal).NewCache = NewCacheFunc.filteredCacheBuilder filteredSecretMap) :=
  ⟨⟨by decide, by decide,
    ((filteredSecretMap_selector envInCluster).2.2.2.2 7 (managerOptions envInCluster)
      (some { scheme := 3, apiReader := 4 }) none (by decide)).2⟩,
   ⟨by decide, by decide,
    ((filteredSecretMap_selector envExternal).2.2.2.2 7 (managerOptions envExternal)
      (some { scheme := 3, apiReader := 4 }) none (by decide)).2⟩⟩

/-! ## The client factory -/

/-- Claim C6: `NewNonCachingClient` ignores the cache and the list of uncached
objects: two calls with the same config and options return the same result
whatever the two caches and the two lists, namely the result of `client.New`
on that config with the scheme `scheme.Scheme`. -/
theorem NewNonCachingClient_ignores_cache {Client : Type}
    (clientNew : RestConfig → ClientOptions → Option Client × Option GoError)
    (config : RestConfig) (options : ClientOptions)
    (cache₁ cache₂ : Cache) (uncachedObjects₁ uncachedObjects₂ : List ClientObject) :
    NewNonCachingClient clientNew cache₁ config options uncachedObjects₁ =
      NewNonCachingClient clientNew cache₂ config options uncachedObjects₂ ∧
    NewNonCachingClient clientNew cache₁ config options uncachedObjects₁ =
      clientNew config { Scheme := some scheme.Scheme } :=
  ⟨rfl, rfl⟩

end GitOpsCluster
